import Mathlib

/-!
A shallow embedding of the rs-identify datasource-detection tool
(src/main.rs) and proofs about its behaviour.

The program reads firmware (DMI) identity fields and probes seed marker
files under a root path, resolves a candidate datasource list from layered
YAML configuration, filters the candidates through per-platform predicates,
appends a sentinel entry, and writes the result.

Modelling conventions:
- the filesystem visible to seed-path probing is a list of existing paths
  (strings relative to the root path);
- raw DMI file contents are a function from field name to optional string
  (none models a missing or unreadable file, i.e. read_to_string(..).ok());
- YAML values are modelled by an inductive with string, sequence and
  other cases, mirroring exactly what serde_yaml as_str/as_sequence expose;
- a panic (Option::unwrap on None) is modelled as Except.error.
-/

namespace RsIdentify

/-- Trimming of surrounding whitespace, modelling Rust str::trim on the
character list of the string. -/
def rust_trim (s : String) : String :=
  ⟨((s.data.dropWhile Char.isWhitespace).reverse.dropWhile Char.isWhitespace).reverse⟩

/-- ASCII lowercasing of a character, modelling Rust char::to_ascii_lowercase. -/
def ascii_lower_char (c : Char) : Char :=
  if 'A' ≤ c ∧ c ≤ 'Z' then Char.ofNat (c.toNat + 32) else c

/-- ASCII lowercasing of a string, modelling Rust str::to_ascii_lowercase. -/
def to_ascii_lowercase (s : String) : String :=
  ⟨s.data.map ascii_lower_char⟩

/-- Prefix test on strings, modelling Rust str::starts_with. -/
def starts_with (s pat : String) : Bool :=
  pat.data.isPrefixOf s.data

/-- The state of the machine as the program observes it: the set of existing
paths (relative to the root path) and the raw contents of the DMI field
files under sys/class/dmi/id. -/
structure Env where
  fs : List String
  dmi : String → Option String

/-- The value of a DMI field as returned by RsIdentify::get_dmi_field:
the raw file content, trimmed; none when the file is missing/unreadable. -/
def dmi_field (env : Env) (field_name : String) : Option String :=
  (env.dmi field_name).map rust_trim

def dmi_chassis_asset_tag (env : Env) : Option String :=
  dmi_field env "chassis_asset_tag"

def dmi_product_name (env : Env) : Option String :=
  dmi_field env "product_name"

def dmi_product_serial (env : Env) : Option String :=
  dmi_field env "product_serial"

def dmi_product_uuid (env : Env) : Option String :=
  dmi_field env "product_uuid"

/-- Path construction of RsIdentify::seed_path_exists: root-relative path
var/lib/cloud/seed/<seed_type>/<filename>, optionally under an extra
leading segment. -/
def seed_path (pre : Option String) (seed_type filename : String) : String :=
  (match pre with
   | some p => p ++ "/"
   | none => "") ++ "var/lib/cloud/seed/" ++ seed_type ++ "/" ++ filename

/-- RsIdentify::seed_path_exists: whether the constructed seed path exists. -/
def seed_path_exists (env : Env) (pre : Option String) (seed_type filename : String) : Bool :=
  env.fs.contains (seed_path pre seed_type filename)

/-- RsIdentify::dscheck_AliYun. -/
def dscheck_AliYun (env : Env) : Bool :=
  dmi_product_name env == some "Alibaba Cloud ECS"

/-- RsIdentify::dscheck_Azure. -/
def dscheck_Azure (env : Env) : Bool :=
  if seed_path_exists env none "azure" "ovf-env.xml" then
    true
  else
    dmi_chassis_asset_tag env == some "7783-7084-3265-9085-8269-3286-77"

/-- RsIdentify::dscheck_ConfigDrive. -/
def dscheck_ConfigDrive (env : Env) : Bool :=
  seed_path_exists env none "config_drive" "openstack/latest/meta_data.json"

/-- RsIdentify::dscheck_Ec2: both serial and uuid are lowercased; the check
requires both to start with "ec2" and the lowercased options to be equal. -/
def dscheck_Ec2 (env : Env) : Bool :=
  let serial := (dmi_product_serial env).map to_ascii_lowercase
  let uuid := (dmi_product_uuid env).map to_ascii_lowercase
  ((serial.map (fun s => starts_with s "ec2")).getD false
    && (uuid.map (fun s => starts_with s "ec2")).getD false)
    && serial == uuid

/-- RsIdentify::dscheck_Exoscale. -/
def dscheck_Exoscale (env : Env) : Bool :=
  dmi_product_name env == some "Exoscale"

/-- RsIdentify::dscheck_GCE. -/
def dscheck_GCE (env : Env) : Bool :=
  dmi_product_name env == some "Google Compute Engine"
    || ((dmi_product_serial env).map (fun serial => starts_with serial "GoogleCloud")).getD false

/-- RsIdentify::dscheck_NoCloud: for each seed type, both marker files must
exist either directly or under the writable/system-data mirror. The source
loop with early returns is the same as an any over the two seed types. -/
def dscheck_NoCloud (env : Env) : Bool :=
  (["nocloud", "nocloud-net"] : List String).any fun seed_type =>
    (seed_path_exists env none seed_type "user-data"
        && seed_path_exists env none seed_type "meta-data")
      || (seed_path_exists env (some "writable/system-data") seed_type "user-data"
        && seed_path_exists env (some "writable/system-data") seed_type "meta-data")

/-- RsIdentify::dscheck_Oracle. -/
def dscheck_Oracle (env : Env) : Bool :=
  dmi_chassis_asset_tag env == some "OracleCloud.com"

/-- The name-to-predicate dispatch inlined in
RsIdentify::find_datasources_from_list: unrecognized names map to false. -/
def datasource_check (env : Env) (candidate_datasource : String) : Bool :=
  match candidate_datasource with
  | "AliYun" => dscheck_AliYun env
  | "Azure" => dscheck_Azure env
  | "ConfigDrive" => dscheck_ConfigDrive env
  | "Ec2" => dscheck_Ec2 env
  | "Exoscale" => dscheck_Exoscale env
  | "GCE" => dscheck_GCE env
  | "NoCloud" => dscheck_NoCloud env
  | "Oracle" => dscheck_Oracle env
  | _ => false

/-- RsIdentify::find_datasources_from_list: keep the candidates whose check
returns true (the println side effect is dropped). -/
def find_datasources_from_list (env : Env) (input_datasource_list : List String) : List String :=
  input_datasource_list.filter (datasource_check env)

/-- The detection stage of RsIdentify::identify before the sentinel step:
a single-element list is taken as-is, otherwise the list is filtered. -/
def pre_sentinel (env : Env) (input_datasource_list : List String) : List String :=
  if input_datasource_list.length == 1 then
    input_datasource_list
  else
    find_datasources_from_list env input_datasource_list

/-- RsIdentify::identify, from the resolved candidate list to the list that
is written out: detection stage, then push "None" unless already present. -/
def identify (env : Env) (input_datasource_list : List String) : List String :=
  let output_datasource_list := pre_sentinel env input_datasource_list
  if output_datasource_list.contains "None" then
    output_datasource_list
  else
    output_datasource_list ++ ["None"]

/-- A YAML value as serde_yaml exposes it to this program: as_str succeeds
exactly on strings, as_sequence exactly on sequences; every other shape
(number, boolean, mapping, null, ...) is collapsed into other. -/
inductive YamlValue where
  | str (s : String)
  | seq (items : List YamlValue)
  | other

/-- serde_yaml Value::as_str. -/
def YamlValue.as_str : YamlValue → Option String
  | .str s => some s
  | _ => none

/-- serde_yaml Value::as_sequence. -/
def YamlValue.as_sequence : YamlValue → Option (List YamlValue)
  | .seq items => some items
  | _ => none

/-- A configuration file as RsIdentify::get_datasource_list_from_path sees
it: File::open may fail, serde_yaml::from_reader may fail to produce a
mapping, or we get a mapping from string keys to YAML values. -/
inductive ConfigFile where
  | unreadable
  | unparseable
  | mapping (entries : List (String × YamlValue))

/-- RsIdentify::get_datasource_list_from_path. An unreadable or unparseable
file yields ok none (no result). When the datasource_list key is present,
the source calls as_sequence().unwrap(): a non-sequence value panics,
modelled as Except.error; a sequence is filter_mapped through as_str. -/
def get_datasource_list_from_path : ConfigFile → Except Unit (Option (List String))
  | .unreadable => .ok none
  | .unparseable => .ok none
  | .mapping entries =>
    match entries.lookup "datasource_list" with
    | none => .ok none
    | some value =>
      match value.as_sequence with
      | none => .error ()
      | some items => .ok (some (items.filterMap YamlValue.as_str))

/-- The fragment files of etc/cloud/cloud.cfg.d, sorted by filename
(Rust Vec::sort on the paths). -/
def sort_fragments (frags : List (String × ConfigFile)) : List (String × ConfigFile) :=
  frags.insertionSort (fun a b => a.1 ≤ b.1)

/-- One iteration of the fragment loop in RsIdentify::get_datasource_list:
list = self.get_datasource_list_from_path(&cloud_d_path).or(list). -/
def resolve_step (acc : Option (List String)) (frag : String × ConfigFile) :
    Except Unit (Option (List String)) := do
  let r ← get_datasource_list_from_path frag.2
  pure (r <|> acc)

/-- The built-in default candidate list of RsIdentify::get_datasource_list. -/
def DEFAULT_DATASOURCE_LIST : List String :=
  ["AliYun", "Azure", "ConfigDrive", "Ec2", "Exoscale", "GCE", "NoCloud", "Oracle"]

/-- RsIdentify::get_datasource_list: parse the base file etc/cloud/cloud.cfg,
then fold the sorted fragments with last-writer-wins, and fall back to the
built-in default list when no source yielded a list. -/
def get_datasource_list (base : ConfigFile) (frags : List (String × ConfigFile)) :
    Except Unit (List String) := do
  let init ← get_datasource_list_from_path base
  let final ← (sort_fragments frags).foldlM resolve_step init
  pure (final.getD DEFAULT_DATASOURCE_LIST)

/-- The fixed set of candidate names recognized by the dispatch in
RsIdentify::find_datasources_from_list. -/
def RECOGNIZED_DATASOURCES : List String :=
  ["AliYun", "Azure", "ConfigDrive", "Ec2", "Exoscale", "GCE", "NoCloud", "Oracle"]

/-- RsIdentify::get_dmi_field, with the cache made explicit. The store is
the raw contents of sys/class/dmi/id (none = missing/unreadable); the cache
is the dmi_values map, modelled as an association list. Returns the value,
the updated cache, and whether storage was accessed on this call. -/
def get_dmi_field (store : String → Option String)
    (dmi_values : List (String × Option String)) (field_name : String) :
    Option String × List (String × Option String) × Bool :=
  match dmi_values.lookup field_name with
  | some value => (value, dmi_values, false)
  | none =>
    let value := (store field_name).map rust_trim
    (value, (field_name, value) :: dmi_values, true)

/-- A machine with no seed files and no readable DMI fields: no platform
signal at all. -/
def env0 : Env := ⟨[], fun _ => none⟩

/-- A machine carrying the Azure seed marker file. -/
def env_azure_seed : Env := ⟨["var/lib/cloud/seed/azure/ovf-env.xml"], fun _ => none⟩

/-- Identity fields for the EC2 positive scenario: serial and uuid differ
only in ASCII case. -/
def env_ec2_eq : Env :=
  ⟨[], fun f =>
    if f = "product_serial" then some "EC2abc123"
    else if f = "product_uuid" then some "ec2ABC123"
    else none⟩

/-- Identity fields for the EC2 negative scenario: serial and uuid differ
in their last character. -/
def env_ec2_ne : Env :=
  ⟨[], fun f =>
    if f = "product_serial" then some "EC2abc123"
    else if f = "product_uuid" then some "ec2abc124"
    else none⟩

/-- A machine whose only special files are the two nocloud-net seed markers
(direct path, not the writable mirror, not the plain nocloud seed type). -/
def env_nocloud_net : Env :=
  ⟨["var/lib/cloud/seed/nocloud-net/user-data",
    "var/lib/cloud/seed/nocloud-net/meta-data"], fun _ => none⟩

/-- A DMI backing store exposing only an untrimmed product_serial. -/
def store_ec2 : String → Option String :=
  fun f => if f = "product_serial" then some "  EC2abc " else none

end RsIdentify

section Theorems

open RsIdentify

/-- Helper: the sentinel name is not a recognized datasource, so the
dispatch maps it to false for every environment. -/
theorem datasource_check_None (env : Env) : datasource_check env "None" = false := rfl

/-- Helper: on the all-absent environment every datasource check is false. -/
theorem no_signals_env0 : ∀ name, datasource_check env0 name = false := by
  intro name
  unfold datasource_check
  split <;> rfl

/-- Helper: a fold of resolve_step over fragments none of which yields a
datasource_list leaves the accumulated result unchanged. -/
theorem foldlM_resolve_step_none (fs : List (String × ConfigFile))
    (h : ∀ f ∈ fs, get_datasource_list_from_path f.2 = .ok none) :
    ∀ acc : Option (List String), fs.foldlM resolve_step acc = .ok acc := by
  induction fs with
  | nil => intro acc; rfl
  | cons f fs ih =>
    intro acc
    have hf : get_datasource_list_from_path f.2 = .ok none := h f (by simp)
    have hstep : resolve_step acc f = .ok acc := by
      simp [resolve_step, hf]
    simp only [List.foldlM_cons, hstep]
    exact ih (fun g hg => h g (by simp [hg])) acc

/-- C1 counterexample: a mapping whose datasource_list value is the plain
string "Azure" (present, not a sequence) makes parsing panic
(Except.error, i.e. the unwrap aborts the run), not yield "no result";
the abort propagates through whole-list resolution. -/
theorem c1_nonsequence_counterexample :
    get_datasource_list_from_path
        (ConfigFile.mapping [("datasource_list", YamlValue.str "Azure")])
      = .error () ∧
    get_datasource_list ConfigFile.unreadable
        [("10-bad.cfg", ConfigFile.mapping [("datasource_list", YamlValue.str "Azure")])]
      = .error () :=
  ⟨rfl, rfl⟩

/-- C1 (amended): when the datasource_list key is present but its value is
not a sequence, get_datasource_list_from_path panics (models the
as_sequence().unwrap() abort) instead of yielding no result; when the value
is a sequence, non-string elements are skipped individually through as_str
while string elements are kept in order. -/
theorem c1_nonsequence_value_panics (entries : List (String × YamlValue))
    (value : YamlValue) (hv : entries.lookup "datasource_list" = some value) :
    (value.as_sequence = none →
      get_datasource_list_from_path (.mapping entries) = .error ()) ∧
    (∀ items, value = .seq items →
      get_datasource_list_from_path (.mapping entries)
        = .ok (some (items.filterMap YamlValue.as_str))) := by
  constructor
  · intro hns
    simp [get_datasource_list_from_path, hv, hns]
  · rintro items rfl
    simp [get_datasource_list_from_path, hv, YamlValue.as_sequence]

/-- C1 witness: a concrete non-sequence value (a nested mapping/other
shape) under the datasource_list key makes the parse abort. -/
theorem c1_nonsequence_value_panics_witness :
    get_datasource_list_from_path
        (ConfigFile.mapping [("datasource_list", YamlValue.other)])
      = .error () :=
  (c1_nonsequence_value_panics [("datasource_list", YamlValue.other)] YamlValue.other rfl).1 rfl

/-- C2 counterexample: the resolved one-element candidate list ["None"]
short-circuits but nothing is appended (the sentinel is already present),
so the result is not the list with the sentinel appended. -/
theorem c2_short_circuit_counterexample :
    identify env0 ["None"] = ["None"] ∧
    identify env0 ["None"] ≠ ["None"] ++ ["None"] := by
  constructor
  · decide
  · decide

/-- C2 (amended): a resolved candidate list of length exactly 1 is passed
through detection unchanged — the sentinel "None" is appended unless the
single entry is already "None" — and no predicate is evaluated: the result
is the same for any two machine states. -/
theorem c2_short_circuit_amended (env env' : Env) (l : List String)
    (h : l.length = 1) :
    identify env l = (if l.contains "None" then l else l ++ ["None"]) ∧
    identify env l = identify env' l := by
  have hb : (l.length == 1) = true := by simpa using h
  constructor <;> simp [identify, pre_sentinel, hb]

/-- C2 witness: the candidate list ["Azure"] on a machine with no Azure
signal still yields ["Azure", "None"], and the state does not matter. -/
theorem c2_short_circuit_amended_witness :
    identify env0 ["Azure"] = ["Azure", "None"] ∧
    identify env0 ["Azure"] = identify env_azure_seed ["Azure"] := by
  have h := c2_short_circuit_amended env0 env_azure_seed ["Azure"] (by decide)
  refine ⟨?_, h.2⟩
  rw [h.1]
  decide

/-- C8: when neither the base file nor any fragment yields a
datasource_list, resolution returns the built-in default candidate list,
whose fixed canonical order is the eight supported platform names below;
determinism is immediate since the resolver is a pure function. -/
theorem c8_default_list (base : ConfigFile) (frags : List (String × ConfigFile))
    (hb : get_datasource_list_from_path base = .ok none)
    (hf : ∀ frag ∈ frags, get_datasource_list_from_path frag.2 = .ok none) :
    get_datasource_list base frags = .ok DEFAULT_DATASOURCE_LIST ∧
    DEFAULT_DATASOURCE_LIST
      = ["AliYun", "Azure", "ConfigDrive", "Ec2", "Exoscale", "GCE", "NoCloud", "Oracle"] := by
  refine ⟨?_, rfl⟩
  have hsorted : ∀ f ∈ sort_fragments frags, get_datasource_list_from_path f.2 = .ok none := by
    intro f hmem
    exact hf f ((List.perm_insertionSort _ frags).mem_iff.mp hmem)
  have hfold := foldlM_resolve_step_none _ hsorted none
  simp [get_datasource_list, hb, hfold, bind, Except.bind, Except.map, pure, Except.pure]

/-- C8 witness: a missing base file and one unparseable fragment resolve to
the default list. -/
theorem c8_default_list_witness :
    get_datasource_list ConfigFile.unreadable [("a.cfg", ConfigFile.unparseable)]
      = .ok DEFAULT_DATASOURCE_LIST := by
  refine (c8_default_list ConfigFile.unreadable [("a.cfg", ConfigFile.unparseable)] rfl ?_).1
  rintro f hf
  simp only [List.mem_singleton] at hf
  subst hf
  rfl

/-- C10: the sentinel appended by identify is exactly the capitalized
string "None", appended iff the detection-stage output does not already
contain "None"; a length-1 candidate list holding the lowercase "none"
still has "None" appended and the final element of the result is "None". -/
theorem c10_sentinel_literal :
    (∀ (env : Env) (l : List String),
      identify env l = pre_sentinel env l ++ ["None"] ↔
        (pre_sentinel env l).contains "None" = false) ∧
    identify env0 ["none"] = ["none", "None"] ∧
    (identify env0 ["none"]).getLast? = some "None" := by
  refine ⟨?_, by decide, by decide⟩
  intro env l
  unfold identify
  cases hc : (pre_sentinel env l).contains "None" with
  | true =>
    simp only [hc, if_true]
    constructor
    · intro heq
      have := congrArg List.length heq
      simp at this
    · intro hfalse
      exact absurd hfalse (by simp)
  | false =>
    have hnm : "None" ∉ pre_sentinel env l := by simpa using hc
    simp [hc, hnm]

/-- C3: fragments are iterated in ascending filename order (the sorted
fragment list is sorted by name and is a permutation of the input); a
fragment that yields a parseable datasource_list entirely replaces the
accumulated result while a fragment yielding none keeps it; appending a
yielding fragment at the end of the iteration makes its list the final
result regardless of everything before; concretely, a base defining
["AliYun"] and one later fragment defining ["GCE"] resolve to ["GCE"]. -/
theorem c3_resolution_last_writer_wins :
    (∀ frags : List (String × ConfigFile),
      List.Sorted (· ≤ ·) ((sort_fragments frags).map Prod.fst) ∧
      (sort_fragments frags).Perm frags) ∧
    (∀ (acc : Option (List String)) (frag : String × ConfigFile) (l : List String),
      get_datasource_list_from_path frag.2 = .ok (some l) →
      resolve_step acc frag = .ok (some l)) ∧
    (∀ (acc : Option (List String)) (frag : String × ConfigFile),
      get_datasource_list_from_path frag.2 = .ok none →
      resolve_step acc frag = .ok acc) ∧
    (∀ (init acc : Option (List String)) (fs : List (String × ConfigFile))
        (frag : String × ConfigFile) (l : List String),
      fs.foldlM resolve_step init = .ok acc →
      get_datasource_list_from_path frag.2 = .ok (some l) →
      (fs ++ [frag]).foldlM resolve_step init = .ok (some l)) ∧
    get_datasource_list
        (ConfigFile.mapping [("datasource_list", YamlValue.seq [.str "AliYun"])])
        [("90-gce.cfg", ConfigFile.mapping [("datasource_list", YamlValue.seq [.str "GCE"])])]
      = .ok ["GCE"] := by
  refine ⟨?_, ?_, ?_, ?_, rfl⟩
  · intro frags
    haveI : IsTotal (String × ConfigFile) (fun a b => a.1 ≤ b.1) :=
      ⟨fun a b => le_total a.1 b.1⟩
    haveI : IsTrans (String × ConfigFile) (fun a b => a.1 ≤ b.1) :=
      ⟨fun a b c hab hbc => le_trans hab hbc⟩
    exact ⟨List.pairwise_map.mpr (List.sorted_insertionSort _ frags),
      List.perm_insertionSort _ frags⟩
  · intro acc frag l h
    simp [resolve_step, h]
  · intro acc frag h
    simp [resolve_step, h]
  · intro init acc fs frag l hfs hfrag
    rw [List.foldlM_append, hfs]
    simp [resolve_step, hfrag, bind, Except.bind, pure, Except.pure]

/-- C3 witness: a fragment defining ["GCE"] replaces an accumulated
["AliYun"]. -/
theorem c3_resolution_last_writer_wins_witness :
    resolve_step (some ["AliYun"])
        ("90-gce.cfg", ConfigFile.mapping [("datasource_list", YamlValue.seq [.str "GCE"])])
      = .ok (some ["GCE"]) :=
  c3_resolution_last_writer_wins.2.1 (some ["AliYun"]) _ ["GCE"] rfl

/-- C4 counterexample: on a machine with zero matching platform signals
(all eight checks false), the length-1 candidate list ["Azure"]
short-circuits to ["Azure", "None"], not to ["None"]. -/
theorem c4_sentinel_counterexample :
    dscheck_AliYun env0 = false ∧ dscheck_Azure env0 = false ∧
    dscheck_ConfigDrive env0 = false ∧ dscheck_Ec2 env0 = false ∧
    dscheck_Exoscale env0 = false ∧ dscheck_GCE env0 = false ∧
    dscheck_NoCloud env0 = false ∧ dscheck_Oracle env0 = false ∧
    identify env0 ["Azure"] = ["Azure", "None"] ∧
    identify env0 ["Azure"] ≠ ["None"] :=
  ⟨rfl, rfl, rfl, rfl, rfl, rfl, rfl, rfl, by decide, by decide⟩

/-- C4 (amended): for every input candidate list the result contains the
sentinel "None" exactly once and ends with it; with zero matching platform
signals the result is exactly ["None"] for every candidate list not of
length exactly 1 (a length-1 list short-circuits instead). -/
theorem c4_sentinel_invariant (env : Env) (l : List String) :
    (identify env l).count "None" = 1 ∧
    (identify env l).getLast? = some "None" ∧
    (l.length ≠ 1 → (∀ name, datasource_check env name = false) →
      identify env l = ["None"]) := by
  by_cases hlen : l.length = 1
  · obtain ⟨x, rfl⟩ := List.length_eq_one.mp hlen
    by_cases hx : x = "None"
    · subst hx
      have hid : identify env ["None"] = ["None"] := rfl
      exact ⟨by rw [hid]; decide, by rw [hid]; decide, fun h _ => absurd rfl h⟩
    · have hbx : (x == "None") = false := by simpa using hx
      have hid : identify env [x] = [x, "None"] := by
        simp [identify, pre_sentinel, List.contains, hbx, Ne.symm hx]
      refine ⟨?_, ?_, fun h _ => absurd rfl h⟩
      · rw [hid, show ([x, "None"] : List String) = [x] ++ ["None"] from rfl,
          List.count_append]
        simp [List.count_cons, hbx]
      · rw [hid, show ([x, "None"] : List String) = [x] ++ ["None"] from rfl,
          List.getLast?_concat]
  · have hb : (l.length == 1) = false := by simpa using hlen
    have hnm : "None" ∉ find_datasources_from_list env l := by
      intro hm
      have := (List.mem_filter.mp hm).2
      rw [datasource_check_None] at this
      exact absurd this (by simp)
    have hcont : (find_datasources_from_list env l).contains "None" = false := by
      simpa using hnm
    have hid : identify env l = find_datasources_from_list env l ++ ["None"] := by
      simp [identify, pre_sentinel, hb, hcont, hnm]
    refine ⟨?_, ?_, ?_⟩
    · rw [hid, List.count_append, List.count_eq_zero.mpr hnm]
      decide
    · rw [hid, List.getLast?_concat]
    · intro _ hz
      have hfil : find_datasources_from_list env l = [] :=
        List.filter_eq_nil_iff.mpr (fun a _ => by simp [hz a])
      rw [hid, hfil]
      rfl

/-- C4 witness: a two-element candidate list on a machine with no signals
yields exactly ["None"], which contains the sentinel once and ends with
it. -/
theorem c4_sentinel_invariant_witness :
    (identify env0 ["Azure", "GCE"]).count "None" = 1 ∧
    (identify env0 ["Azure", "GCE"]).getLast? = some "None" ∧
    identify env0 ["Azure", "GCE"] = ["None"] := by
  have h := c4_sentinel_invariant env0 ["Azure", "GCE"]
  exact ⟨h.1, h.2.1, h.2.2 (by decide) no_signals_env0⟩

/-- C5: on candidate lists of two or more elements the detection stage is
exactly a filter by the per-name predicate: the output is a sublist of the
input (relative order preserved, never sorted), a candidate is retained iff
its predicate evaluates true, and every name outside the fixed recognized
set evaluates to false and is silently dropped. -/
theorem c5_filter_preserves_order (env : Env) (l : List String)
    (h : 2 ≤ l.length) :
    pre_sentinel env l = l.filter (datasource_check env) ∧
    (find_datasources_from_list env l).Sublist l ∧
    (∀ c, c ∈ find_datasources_from_list env l ↔
      c ∈ l ∧ datasource_check env c = true) ∧
    (∀ name, name ∉ RECOGNIZED_DATASOURCES → datasource_check env name = false) := by
  have hb : (l.length == 1) = false := by
    have hne : l.length ≠ 1 := by omega
    simpa using hne
  refine ⟨by simp [pre_sentinel, hb, find_datasources_from_list],
    List.filter_sublist l, ?_, ?_⟩
  · intro c
    simp [find_datasources_from_list, List.mem_filter]
  · intro name hn
    unfold datasource_check
    split <;> simp_all [RECOGNIZED_DATASOURCES]

/-- C5 witness: with no signals, ["GCE", "Bogus"] filters to [] (the
unrecognized "Bogus" is dropped without error), a sublist of the input. -/
theorem c5_filter_preserves_order_witness :
    pre_sentinel env0 ["GCE", "Bogus"] = [] ∧
    (find_datasources_from_list env0 ["GCE", "Bogus"]).Sublist ["GCE", "Bogus"] := by
  have h := c5_filter_preserves_order env0 ["GCE", "Bogus"] (by decide)
  refine ⟨?_, h.2.1⟩
  rw [h.1]
  decide

/-- C6: the EC2 check is true iff product serial and product uuid are both
present, both ASCII-lowercase to something starting with "ec2", and are
equal after ASCII lowercasing; serial "EC2abc123" with uuid "ec2ABC123"
passes, serial "EC2abc123" with uuid "ec2abc124" fails. -/
theorem c6_ec2_predicate :
    (∀ env : Env, dscheck_Ec2 env = true ↔
      ∃ serial uuid,
        dmi_product_serial env = some serial ∧
        dmi_product_uuid env = some uuid ∧
        starts_with (to_ascii_lowercase serial) "ec2" = true ∧
        starts_with (to_ascii_lowercase uuid) "ec2" = true ∧
        to_ascii_lowercase serial = to_ascii_lowercase uuid) ∧
    dscheck_Ec2 env_ec2_eq = true ∧
    dscheck_Ec2 env_ec2_ne = false := by
  refine ⟨?_, by decide, by decide⟩
  intro env
  cases hs : dmi_product_serial env <;> cases hu : dmi_product_uuid env <;>
    simp [dscheck_Ec2, hs, hu, and_assoc]

/-- C7: the NoCloud check is true iff for some seed type among "nocloud"
and "nocloud-net" and some path variant (direct, or under the
writable/system-data mirror) both the user-data and meta-data markers
exist; markers only at var/lib/cloud/seed/nocloud-net/ suffice. -/
theorem c7_nocloud_predicate :
    (∀ env : Env, dscheck_NoCloud env = true ↔
      ∃ seed_type, seed_type ∈ (["nocloud", "nocloud-net"] : List String) ∧
        ∃ pre, pre ∈ ([none, some "writable/system-data"] : List (Option String)) ∧
          seed_path_exists env pre seed_type "user-data" = true ∧
          seed_path_exists env pre seed_type "meta-data" = true) ∧
    dscheck_NoCloud env_nocloud_net = true := by
  refine ⟨?_, by decide⟩
  intro env
  constructor
  · intro h
    simp only [dscheck_NoCloud, List.any_cons, List.any_nil, Bool.or_false,
      Bool.or_eq_true, Bool.and_eq_true] at h
    rcases h with (⟨hu, hm⟩ | ⟨hu, hm⟩) | (⟨hu, hm⟩ | ⟨hu, hm⟩)
    · exact ⟨"nocloud", by simp, none, by simp, hu, hm⟩
    · exact ⟨"nocloud", by simp, some "writable/system-data", by simp, hu, hm⟩
    · exact ⟨"nocloud-net", by simp, none, by simp, hu, hm⟩
    · exact ⟨"nocloud-net", by simp, some "writable/system-data", by simp, hu, hm⟩
  · rintro ⟨st, hst, pre, hpre, hu, hm⟩
    simp only [List.mem_cons, List.not_mem_nil, or_false] at hst hpre
    simp only [dscheck_NoCloud, List.any_cons, List.any_nil, Bool.or_false,
      Bool.or_eq_true, Bool.and_eq_true]
    rcases hst with rfl | rfl <;> rcases hpre with rfl | rfl <;> tauto

/-- C9: the first read of a DMI field returns the raw file content trimmed
(or none when the file is missing/unreadable) and touches storage; any
second read of the same field returns the identical cached value with an
unchanged cache and no storage access. -/
theorem c9_dmi_memoization (store : String → Option String)
    (dmi_values : List (String × Option String)) (field_name : String) :
    (dmi_values.lookup field_name = none →
      (get_dmi_field store dmi_values field_name).1 = (store field_name).map rust_trim ∧
      (get_dmi_field store dmi_values field_name).2.2 = true) ∧
    (get_dmi_field store (get_dmi_field store dmi_values field_name).2.1 field_name).1
      = (get_dmi_field store dmi_values field_name).1 ∧
    (get_dmi_field store (get_dmi_field store dmi_values field_name).2.1 field_name).2.1
      = (get_dmi_field store dmi_values field_name).2.1 ∧
    (get_dmi_field store (get_dmi_field store dmi_values field_name).2.1 field_name).2.2
      = false := by
  cases hl : dmi_values.lookup field_name with
  | some v =>
    refine ⟨fun hn => Option.noConfusion hn, ?_, ?_, ?_⟩ <;>
      simp [get_dmi_field, hl]
  | none =>
    have h1 : get_dmi_field store dmi_values field_name
        = ((store field_name).map rust_trim,
            (field_name, (store field_name).map rust_trim) :: dmi_values, true) := by
      simp [get_dmi_field, hl]
    have h2 : List.lookup field_name
        ((field_name, (store field_name).map rust_trim) :: dmi_values)
        = some ((store field_name).map rust_trim) := by
      simp [List.lookup_cons]
    refine ⟨fun _ => ⟨by rw [h1], by rw [h1]⟩, ?_, ?_, ?_⟩ <;>
      rw [h1] <;> simp [get_dmi_field, h2]

/-- C9 witness: reading product_serial twice from an empty cache over a
store holding "  EC2abc " yields the trimmed "EC2abc" both times, with
storage touched only on the first read. -/
theorem c9_dmi_memoization_witness :
    (get_dmi_field store_ec2 [] "product_serial").1 = some "EC2abc" ∧
    (get_dmi_field store_ec2 [] "product_serial").2.2 = true ∧
    (get_dmi_field store_ec2
        (get_dmi_field store_ec2 [] "product_serial").2.1 "product_serial").1
      = some "EC2abc" ∧
    (get_dmi_field store_ec2
        (get_dmi_field store_ec2 [] "product_serial").2.1 "product_serial").2.2
      = false := by
  have h := c9_dmi_memoization store_ec2 [] "product_serial"
  have hl : ([] : List (String × Option String)).lookup "product_serial" = none := rfl
  have hfst := h.1 hl
  refine ⟨?_, hfst.2, ?_, h.2.2.2⟩
  · rw [hfst.1]
    decide
  · rw [h.2.1, hfst.1]
    decide

end Theorems
